import Mathlib

/-
Shallow embedding of the pricing and store-management core of the
yen-wizard-app repository (TypeScript), for verification of the
specification claims.

Numbers: JavaScript numeric values that carry currency amounts and rates
are embedded as rationals; Math.ceil becomes Int.ceil, so the results of
the two ceiling formulas are integers. Fields parsed with parseInt in the
UI (quantity, actualPayment) are embedded as integers.

Sources embedded here: the types and formula module (types/inventory.ts),
the store hook useStore.ts, the AddInventoryDialog submit handler, and the
SettingsPanel change handler.
-/

namespace YenWizard

/-- Settings record from types/inventory.ts. -/
structure Settings where
  exchangeRate : ℚ
  internationalShipping : ℚ
  domesticShipping : ℚ
  targetProfit : ℚ
  platformFeeRate : ℚ
  deriving DecidableEq

/-- The defaultSettings constant from types/inventory.ts. -/
def defaultSettings : Settings :=
  { exchangeRate := 23
    internationalShipping := 1000
    domesticShipping := 1000
    targetProfit := 6000
    platformFeeRate := 22/100 }

/-- Embedding of calculateSellingPrice from types/inventory.ts. -/
def calculateSellingPrice (costCNY : ℚ) (settings : Settings) : ℤ :=
  let baseCost := costCNY * settings.exchangeRate
  let totalCost := baseCost + settings.internationalShipping +
    settings.domesticShipping + settings.targetProfit
  let sellingPrice := totalCost / (1 - settings.platformFeeRate)
  Int.ceil sellingPrice

/-- Embedding of calculateConvertedWithShipping from types/inventory.ts;
the shipping parameter defaults to 1000 as in the source. -/
def calculateConvertedWithShipping (costCNY : ℚ) (exchangeRate : ℚ)
    (shipping : ℚ := 1000) : ℤ :=
  Int.ceil (costCNY * exchangeRate + shipping)

/-- Embedding of calculateProfit from types/inventory.ts. -/
def calculateProfit (actualPayment : ℤ) (convertedWithShipping : ℤ) : ℤ :=
  actualPayment - convertedWithShipping

/-- InventoryItem record from types/inventory.ts. -/
structure InventoryItem where
  id : String
  photo : String
  productName : String
  color : String
  size : String
  quantity : ℤ
  costPriceCNY : ℚ
  sellingPriceJPY : ℤ
  deriving DecidableEq

/-- OrderItem record from types/inventory.ts, with the completedAt field
used by useStore.ts and the order dialogs. -/
structure OrderItem where
  id : String
  photo : String
  productName : String
  color : String
  size : String
  costPriceCNY : ℚ
  convertedWithShipping : ℤ
  actualPayment : ℤ
  profit : ℤ
  createdAt : String
  completedAt : String
  deriving DecidableEq

/-- Store record from types/inventory.ts. -/
structure Store where
  id : String
  name : String
  inventory : List InventoryItem
  orders : List OrderItem
  deriving DecidableEq

/-- Input to addInventoryItem: Omit of InventoryItem over id and
sellingPriceJPY, as in useStore.ts. -/
structure NewInventoryItem where
  photo : String
  productName : String
  color : String
  size : String
  quantity : ℤ
  costPriceCNY : ℚ
  deriving DecidableEq

/-- Input to addOrderItem: Omit of OrderItem over id, convertedWithShipping
and profit, as in useStore.ts. -/
structure NewOrderItem where
  photo : String
  productName : String
  color : String
  size : String
  costPriceCNY : ℚ
  actualPayment : ℤ
  createdAt : String
  completedAt : String
  deriving DecidableEq

/-- JavaScript disjunction on strings: the empty string is falsy, so
a || b yields b when a is empty and a otherwise. -/
def jsOr (a b : String) : String :=
  if a = "" then b else a

/-- JavaScript String.prototype.trim: strip whitespace from both ends.
Written over the character list so that it evaluates by kernel
reduction. -/
def jsTrim (s : String) : String :=
  ⟨((s.data.dropWhile Char.isWhitespace).reverse.dropWhile Char.isWhitespace).reverse⟩

/-- Embedding of addInventoryItem from useStore.ts. The impure generateId
call and the activeStoreId component of the hook state are passed
explicitly; the setStores updater becomes a function on the store list. -/
def addInventoryItem (newId : String) (settings : Settings)
    (activeStoreId : String) (item : NewInventoryItem)
    (stores : List Store) : List Store :=
  let newItem : InventoryItem :=
    { id := newId
      photo := item.photo
      productName := item.productName
      color := item.color
      size := item.size
      quantity := item.quantity
      costPriceCNY := item.costPriceCNY
      sellingPriceJPY := calculateSellingPrice item.costPriceCNY settings }
  stores.map fun s =>
    if s.id = activeStoreId then { s with inventory := s.inventory ++ [newItem] } else s

namespace AddInventoryDialog

/-- Embedding of handleSubmit from AddInventoryDialog.tsx: onAddItem (the
addInventoryItem hook function) runs only when the trimmed productName is
truthy (non-empty) and costPriceCNY is greater than 0; otherwise no state
change happens. -/
def handleSubmit (newId : String) (settings : Settings)
    (activeStoreId : String) (newItem : NewInventoryItem)
    (stores : List Store) : List Store :=
  if jsTrim newItem.productName ≠ "" ∧ newItem.costPriceCNY > 0 then
    addInventoryItem newId settings activeStoreId newItem stores
  else
    stores

end AddInventoryDialog

/-- Embedding of addOrderItem from useStore.ts. The generateId result and
the current timestamp (new Date().toISOString()) are passed explicitly;
the optional createdAt argument is an Option, with the JavaScript
truthiness chain createdAt || item.createdAt || now modelled by jsOr. -/
def addOrderItem (newId : String) (now : String) (settings : Settings)
    (activeStoreId : String) (item : NewOrderItem)
    (createdAt : Option String) (stores : List Store) : List Store :=
  let convertedWithShipping :=
    calculateConvertedWithShipping item.costPriceCNY settings.exchangeRate
  let profit := calculateProfit item.actualPayment convertedWithShipping
  let orderDate := jsOr (createdAt.getD "") (jsOr item.createdAt now)
  let newItem : OrderItem :=
    { id := newId
      photo := item.photo
      productName := item.productName
      color := item.color
      size := item.size
      costPriceCNY := item.costPriceCNY
      convertedWithShipping := convertedWithShipping
      actualPayment := item.actualPayment
      profit := profit
      createdAt := orderDate
      completedAt := jsOr item.completedAt orderDate }
  stores.map fun s =>
    if s.id = activeStoreId then { s with orders := s.orders ++ [newItem] } else s

/-- Partial of OrderItem: each field optionally present, as the updates
argument of updateOrderItem in useStore.ts. -/
structure OrderItemUpdates where
  id : Option String
  photo : Option String
  productName : Option String
  color : Option String
  size : Option String
  costPriceCNY : Option ℚ
  convertedWithShipping : Option ℤ
  actualPayment : Option ℤ
  profit : Option ℤ
  createdAt : Option String
  completedAt : Option String
  deriving DecidableEq

/-- The object spread of item with updates in updateOrderItem: each field
present in the updates overwrites the one of the item. -/
def spreadOrderItem (item : OrderItem) (updates : OrderItemUpdates) : OrderItem :=
  { id := updates.id.getD item.id
    photo := updates.photo.getD item.photo
    productName := updates.productName.getD item.productName
    color := updates.color.getD item.color
    size := updates.size.getD item.size
    costPriceCNY := updates.costPriceCNY.getD item.costPriceCNY
    convertedWithShipping := updates.convertedWithShipping.getD item.convertedWithShipping
    actualPayment := updates.actualPayment.getD item.actualPayment
    profit := updates.profit.getD item.profit
    createdAt := updates.createdAt.getD item.createdAt
    completedAt := updates.completedAt.getD item.completedAt }

/-- Embedding of updateOrderItem from useStore.ts: spread the updates over
the matching item, then recompute convertedWithShipping when costPriceCNY
is among the updates, then recompute profit when actualPayment or
costPriceCNY is among the updates. -/
def updateOrderItem (settings : Settings) (activeStoreId : String)
    (itemId : String) (updates : OrderItemUpdates)
    (stores : List Store) : List Store :=
  stores.map fun s =>
    if s.id ≠ activeStoreId then s else
    { s with orders := s.orders.map fun item =>
        if item.id ≠ itemId then item else
        let updated := spreadOrderItem item updates
        let updated :=
          match updates.costPriceCNY with
          | some c =>
              { updated with convertedWithShipping :=
                  calculateConvertedWithShipping c settings.exchangeRate }
          | none => updated
        if updates.actualPayment.isSome ∨ updates.costPriceCNY.isSome then
          { updated with profit :=
              calculateProfit updated.actualPayment updated.convertedWithShipping }
        else updated }

/-- Partial of Settings, as the newSettings argument of updateSettings in
useStore.ts. -/
structure SettingsUpdates where
  exchangeRate : Option ℚ
  internationalShipping : Option ℚ
  domesticShipping : Option ℚ
  targetProfit : Option ℚ
  platformFeeRate : Option ℚ
  deriving DecidableEq

/-- Embedding of updateSettings from useStore.ts: the object spread of the
previous settings with the partial newSettings, with no validation. -/
def updateSettings (prev : Settings) (newSettings : SettingsUpdates) : Settings :=
  { exchangeRate := newSettings.exchangeRate.getD prev.exchangeRate
    internationalShipping := newSettings.internationalShipping.getD prev.internationalShipping
    domesticShipping := newSettings.domesticShipping.getD prev.domesticShipping
    targetProfit := newSettings.targetProfit.getD prev.targetProfit
    platformFeeRate := newSettings.platformFeeRate.getD prev.platformFeeRate }

/-- Embedding of recalculateAllPrices from useStore.ts: over every store,
overwrite sellingPriceJPY of every inventory item and the
convertedWithShipping and profit of every order, from the current
settings. -/
def recalculateAllPrices (settings : Settings) (stores : List Store) : List Store :=
  stores.map fun store =>
    { store with
      inventory := store.inventory.map fun item =>
        { item with sellingPriceJPY := calculateSellingPrice item.costPriceCNY settings }
      orders := store.orders.map fun order =>
        let convertedWithShipping :=
          calculateConvertedWithShipping order.costPriceCNY settings.exchangeRate
        { order with
          convertedWithShipping := convertedWithShipping
          profit := calculateProfit order.actualPayment convertedWithShipping } }

/-
Derived notions the claims quantify over. These follow the wording of the
claims; the operations above follow the source.
-/

/-- Relation between an inventory item before a recalculation sweep and
after: sellingPriceJPY is overwritten from the current settings and every
other field is unchanged. -/
def recalcInvRel (settings : Settings) (old new : InventoryItem) : Prop :=
  new.sellingPriceJPY = calculateSellingPrice old.costPriceCNY settings ∧
  new.id = old.id ∧ new.photo = old.photo ∧ new.productName = old.productName ∧
  new.color = old.color ∧ new.size = old.size ∧ new.quantity = old.quantity ∧
  new.costPriceCNY = old.costPriceCNY

/-- Relation between an order before a recalculation sweep and after:
convertedWithShipping is overwritten from the current exchange rate,
profit becomes actualPayment minus that value, and every other field is
unchanged. -/
def recalcOrderRel (settings : Settings) (old new : OrderItem) : Prop :=
  new.convertedWithShipping =
    calculateConvertedWithShipping old.costPriceCNY settings.exchangeRate ∧
  new.profit = old.actualPayment - new.convertedWithShipping ∧
  new.id = old.id ∧ new.photo = old.photo ∧ new.productName = old.productName ∧
  new.color = old.color ∧ new.size = old.size ∧
  new.costPriceCNY = old.costPriceCNY ∧ new.actualPayment = old.actualPayment ∧
  new.createdAt = old.createdAt ∧ new.completedAt = old.completedAt

/-- Relation between a store before a recalculation sweep and after: same
identity, and the two collections related item by item. -/
def recalcStoreRel (settings : Settings) (old new : Store) : Prop :=
  new.id = old.id ∧ new.name = old.name ∧
  List.Forall₂ (recalcInvRel settings) old.inventory new.inventory ∧
  List.Forall₂ (recalcOrderRel settings) old.orders new.orders

/-- The profit consistency invariant of an order. -/
def orderProfitInvariant (o : OrderItem) : Prop :=
  o.profit = o.actualPayment - o.convertedWithShipping

/-- The profit invariant over every order of every store. -/
def allOrdersInv (stores : List Store) : Prop :=
  ∀ s ∈ stores, ∀ o ∈ s.orders, orderProfitInvariant o

/-- An order update restricted to the attribute fields: it carries no id
and does not directly set the derived convertedWithShipping or profit
fields. -/
def attributeOnlyUpdates (u : OrderItemUpdates) : Prop :=
  u.id = none ∧ u.convertedWithShipping = none ∧ u.profit = none

/-
Concrete sample data for witnesses and counterexamples.
-/

/-- An empty store. -/
def store0 : Store := ⟨"s1", "Store 1", [], []⟩

/-- An order whose derived fields are consistent with defaultSettings:
converted cost of 10 CNY at rate 23 is 1230, profit 3000 - 1230 = 1770. -/
def order0 : OrderItem :=
  ⟨"o1", "", "item", "", "", 10, 1230, 3000, 1770, "2026-01-15", "2026-01-15"⟩

/-- A store holding order0. -/
def orderStore : Store := ⟨"s1", "Store 1", [], [order0]⟩

/-- The empty order update. -/
def noOrderUpdates : OrderItemUpdates :=
  ⟨none, none, none, none, none, none, none, none, none, none, none⟩

/-- An order update that only sets the derived profit field. -/
def profitOnlyUpdate : OrderItemUpdates :=
  ⟨none, none, none, none, none, none, none, none, some 0, none, none⟩

/-- A new order input. -/
def sampleNewOrder : NewOrderItem := ⟨"", "item", "", "", 10, 3000, "", ""⟩

/-- A valid new inventory input. -/
def goodNewInventory : NewInventoryItem := ⟨"", "item", "", "", 1, 5⟩

/-- A new inventory input with non-positive quantity but non-empty name
and positive cost. -/
def badQuantityInventory : NewInventoryItem := ⟨"", "item", "", "", -5, 5⟩

/-- A new inventory input with a name that trims to the empty string. -/
def blankNameInventory : NewInventoryItem := ⟨"", "  ", "", "", 1, 5⟩

/-- A settings update that only sets platformFeeRate, to the invalid value
3/2. -/
def invalidFeeUpdate : SettingsUpdates := ⟨none, none, none, none, some (3/2)⟩

end YenWizard

namespace YenWizard

/-- C1: calculateSellingPrice(costCNY, settings) equals the ceiling of
(costCNY * exchangeRate + internationalShipping + domesticShipping +
targetProfit) / (1 - platformFeeRate), for every costCNY ≥ 0 and every
settings with platformFeeRate in [0,1); in particular, for the default
settings (rate 23, shipping 1000 and 1000, profit 6000, fee 22/100) and
costCNY = 100 the result is 13206. -/
theorem calculateSellingPrice_formula_spec (costCNY : ℚ) (settings : Settings)
    (hc : 0 ≤ costCNY) (hf0 : 0 ≤ settings.platformFeeRate)
    (hf1 : settings.platformFeeRate < 1) :
    calculateSellingPrice costCNY settings =
      ⌈(costCNY * settings.exchangeRate + settings.internationalShipping +
        settings.domesticShipping + settings.targetProfit) /
        (1 - settings.platformFeeRate)⌉ ∧
    calculateSellingPrice 100 defaultSettings = 13206 := by
  constructor
  · rfl
  · simp only [calculateSellingPrice, defaultSettings]
    norm_num [Int.ceil_eq_iff]

/-- Witness for C1 at costCNY = 100 and the default settings. -/
theorem calculateSellingPrice_formula_spec_witness :
    calculateSellingPrice 100 defaultSettings =
      ⌈((100:ℚ) * defaultSettings.exchangeRate + defaultSettings.internationalShipping +
        defaultSettings.domesticShipping + defaultSettings.targetProfit) /
        (1 - defaultSettings.platformFeeRate)⌉ ∧
    calculateSellingPrice 100 defaultSettings = 13206 :=
  calculateSellingPrice_formula_spec 100 defaultSettings (by norm_num)
    (by norm_num [defaultSettings]) (by norm_num [defaultSettings])

/-- C2: after recalculateAllPrices, every inventory item of every store has
sellingPriceJPY equal to calculateSellingPrice of its cost under the
current settings, every order has convertedWithShipping equal to
calculateConvertedWithShipping of its cost at the current exchange rate
and profit equal to actualPayment minus that value, and every other field
of every item and every store identity and membership are unchanged. -/
theorem recalculateAllPrices_updates_all (settings : Settings) (stores : List Store) :
    List.Forall₂ (recalcStoreRel settings) stores (recalculateAllPrices settings stores) := by
  unfold recalculateAllPrices
  rw [List.forall₂_map_right_iff, List.forall₂_same]
  intro store _
  refine ⟨rfl, rfl, ?_, ?_⟩
  · rw [List.forall₂_map_right_iff, List.forall₂_same]
    intro item _
    exact ⟨rfl, rfl, rfl, rfl, rfl, rfl, rfl, rfl⟩
  · rw [List.forall₂_map_right_iff, List.forall₂_same]
    intro order _
    exact ⟨rfl, rfl, rfl, rfl, rfl, rfl, rfl, rfl, rfl, rfl, rfl⟩

/-- C3: recalculateAllPrices is idempotent — applying the sweep twice with
the same settings produces exactly the same stores as applying it once. -/
theorem recalculateAllPrices_idempotent (settings : Settings) (stores : List Store) :
    recalculateAllPrices settings (recalculateAllPrices settings stores) =
      recalculateAllPrices settings stores := by
  unfold recalculateAllPrices
  rw [List.map_map]
  apply List.map_congr_left
  intro store _
  simp only [Function.comp_apply, List.map_map]
  refine congrArg₂ (fun a b => Store.mk store.id store.name a b) ?_ ?_
  · apply List.map_congr_left
    intro item _
    rfl
  · apply List.map_congr_left
    intro order _
    rfl

/-- C4: calculateConvertedWithShipping with the shipping argument omitted
equals the ceiling of costCNY * exchangeRate + 1000, in particular 1200 at
(10, 20); and the order-side operations addOrderItem, updateOrderItem and
recalculateAllPrices depend only on settings.exchangeRate on the order
side, so two settings values with the same exchange rate but different
shipping and profit fields give identical order results. -/
theorem orders_use_default_shipping (c r : ℚ) (s1 s2 : Settings)
    (h : s1.exchangeRate = s2.exchangeRate)
    (newId now activeStoreId itemId : String) (item : NewOrderItem)
    (createdAt : Option String) (u : OrderItemUpdates) (stores : List Store) :
    calculateConvertedWithShipping c r = ⌈c * r + 1000⌉ ∧
    calculateConvertedWithShipping 10 20 = 1200 ∧
    addOrderItem newId now s1 activeStoreId item createdAt stores =
      addOrderItem newId now s2 activeStoreId item createdAt stores ∧
    updateOrderItem s1 activeStoreId itemId u stores =
      updateOrderItem s2 activeStoreId itemId u stores ∧
    (recalculateAllPrices s1 stores).map Store.orders =
      (recalculateAllPrices s2 stores).map Store.orders := by
  obtain ⟨r1, i1, d1, t1, f1⟩ := s1
  obtain ⟨r2, i2, d2, t2, f2⟩ := s2
  simp only [Settings.exchangeRate] at h
  subst h
  refine ⟨rfl, ?_, rfl, rfl, ?_⟩
  · simp only [calculateConvertedWithShipping]
    norm_num [Int.ceil_eq_iff]
  · simp only [recalculateAllPrices, List.map_map]
    apply List.map_congr_left
    intro store _
    rfl

/-- Witness for C4: two settings sharing exchange rate 23 but with
different shipping and profit fields act identically on the order side. -/
theorem orders_use_default_shipping_witness :
    calculateConvertedWithShipping 10 20 = ⌈(10:ℚ) * 20 + 1000⌉ ∧
    calculateConvertedWithShipping 10 20 = 1200 ∧
    addOrderItem "o2" "2026-02-01" defaultSettings "s1" sampleNewOrder none [orderStore] =
      addOrderItem "o2" "2026-02-01" ⟨23, 5, 7, 9, 1/2⟩ "s1" sampleNewOrder none [orderStore] ∧
    updateOrderItem defaultSettings "s1" "o1" noOrderUpdates [orderStore] =
      updateOrderItem ⟨23, 5, 7, 9, 1/2⟩ "s1" "o1" noOrderUpdates [orderStore] ∧
    (recalculateAllPrices defaultSettings [orderStore]).map Store.orders =
      (recalculateAllPrices ⟨23, 5, 7, 9, 1/2⟩ [orderStore]).map Store.orders :=
  orders_use_default_shipping 10 20 defaultSettings ⟨23, 5, 7, 9, 1/2⟩ rfl
    "o2" "2026-02-01" "s1" "o1" sampleNewOrder none noOrderUpdates [orderStore]

/-- C5: for every cost ≥ 0 and settings with positive exchange rate,
platformFeeRate in [0,1) and non-negative shipping and profit fields, the
selling price is at least the converted cost costCNY * exchangeRate. -/
theorem sellingPrice_covers_converted_cost (costCNY : ℚ) (settings : Settings)
    (hc : 0 ≤ costCNY) (hr : 0 < settings.exchangeRate)
    (hf0 : 0 ≤ settings.platformFeeRate) (hf1 : settings.platformFeeRate < 1)
    (hi : 0 ≤ settings.internationalShipping)
    (hd : 0 ≤ settings.domesticShipping) (ht : 0 ≤ settings.targetProfit) :
    costCNY * settings.exchangeRate ≤ (calculateSellingPrice costCNY settings : ℚ) := by
  simp only [calculateSellingPrice]
  have hbase : 0 ≤ costCNY * settings.exchangeRate := mul_nonneg hc hr.le
  have hden : 0 < 1 - settings.platformFeeRate := by linarith
  set total := costCNY * settings.exchangeRate + settings.internationalShipping +
    settings.domesticShipping + settings.targetProfit with htotal
  have htot : costCNY * settings.exchangeRate ≤ total := by rw [htotal]; linarith
  have htot0 : 0 ≤ total := le_trans hbase htot
  have hdiv : total ≤ total / (1 - settings.platformFeeRate) := by
    rw [le_div_iff₀ hden]
    nlinarith
  calc costCNY * settings.exchangeRate ≤ total := htot
    _ ≤ total / (1 - settings.platformFeeRate) := hdiv
    _ ≤ (⌈total / (1 - settings.platformFeeRate)⌉ : ℚ) := Int.le_ceil _

/-- Witness for C5 at costCNY = 100 and the default settings. -/
theorem sellingPrice_covers_converted_cost_witness :
    (100:ℚ) * defaultSettings.exchangeRate ≤
      (calculateSellingPrice 100 defaultSettings : ℚ) :=
  sellingPrice_covers_converted_cost 100 defaultSettings (by norm_num)
    (by norm_num [defaultSettings]) (by norm_num [defaultSettings])
    (by norm_num [defaultSettings]) (by norm_num [defaultSettings])
    (by norm_num [defaultSettings]) (by norm_num [defaultSettings])

end YenWizard

namespace YenWizard

/-- C6 counterexample: with the valid settings (rate 23, no shipping, no
profit, fee 0), the costs 1/100 < 2/100 give the same selling price, and
with cost 1/100 fixed the rates 23 < 24 give the same selling price, so
calculateSellingPrice is not strictly increasing in either argument. -/
theorem sellingPrice_strict_mono_cex :
    (0:ℚ) < (⟨23, 0, 0, 0, 0⟩ : Settings).exchangeRate ∧
    (0:ℚ) ≤ (⟨23, 0, 0, 0, 0⟩ : Settings).platformFeeRate ∧
    (⟨23, 0, 0, 0, 0⟩ : Settings).platformFeeRate < 1 ∧
    (1:ℚ)/100 < 2/100 ∧
    calculateSellingPrice (1/100) ⟨23, 0, 0, 0, 0⟩ =
      calculateSellingPrice (2/100) ⟨23, 0, 0, 0, 0⟩ ∧
    (23:ℚ) < 24 ∧
    calculateSellingPrice (1/100) ⟨23, 0, 0, 0, 0⟩ =
      calculateSellingPrice (1/100) ⟨24, 0, 0, 0, 0⟩ := by
  refine ⟨by norm_num, by norm_num, by norm_num, by norm_num, ?_, by norm_num, ?_⟩
  · have h1 : calculateSellingPrice (1/100) ⟨23, 0, 0, 0, 0⟩ = 1 := by
      simp only [calculateSellingPrice]; norm_num [Int.ceil_eq_iff]
    have h2 : calculateSellingPrice (2/100) ⟨23, 0, 0, 0, 0⟩ = 1 := by
      simp only [calculateSellingPrice]; norm_num [Int.ceil_eq_iff]
    rw [h1, h2]
  · have h1 : calculateSellingPrice (1/100) ⟨23, 0, 0, 0, 0⟩ = 1 := by
      simp only [calculateSellingPrice]; norm_num [Int.ceil_eq_iff]
    have h2 : calculateSellingPrice (1/100) ⟨24, 0, 0, 0, 0⟩ = 1 := by
      simp only [calculateSellingPrice]; norm_num [Int.ceil_eq_iff]
    rw [h1, h2]

/-- C6 amended: holding valid settings fixed, calculateSellingPrice is
non-decreasing (not strictly increasing) in costCNY, and holding a
non-negative cost fixed it is non-decreasing in the exchange rate;
strictness fails because of the ceiling rounding. -/
theorem sellingPrice_monotone (settings : Settings) (c c1 c2 r1 r2 : ℚ)
    (hr : 0 ≤ settings.exchangeRate) (hc12 : c1 ≤ c2)
    (hf1 : settings.platformFeeRate < 1) (hc : 0 ≤ c) (hr12 : r1 ≤ r2) :
    calculateSellingPrice c1 settings ≤ calculateSellingPrice c2 settings ∧
    calculateSellingPrice c { settings with exchangeRate := r1 } ≤
      calculateSellingPrice c { settings with exchangeRate := r2 } := by
  have hden : 0 < 1 - settings.platformFeeRate := by linarith
  constructor
  · simp only [calculateSellingPrice]
    apply Int.ceil_le_ceil
    apply div_le_div_of_nonneg_right ?_ hden.le
    have := mul_le_mul_of_nonneg_right hc12 hr
    linarith
  · simp only [calculateSellingPrice]
    apply Int.ceil_le_ceil
    apply div_le_div_of_nonneg_right ?_ hden.le
    have := mul_le_mul_of_nonneg_left hr12 hc
    linarith

/-- Witness for the amended C6 at concrete costs 10 ≤ 20 and rates
23 ≤ 25 under the default settings. -/
theorem sellingPrice_monotone_witness :
    calculateSellingPrice 10 defaultSettings ≤ calculateSellingPrice 20 defaultSettings ∧
    calculateSellingPrice 5 { defaultSettings with exchangeRate := 23 } ≤
      calculateSellingPrice 5 { defaultSettings with exchangeRate := 25 } :=
  sellingPrice_monotone defaultSettings 5 10 20 23 25
    (by norm_num [defaultSettings]) (by norm_num)
    (by norm_num [defaultSettings]) (by norm_num) (by norm_num)

/-- C7 counterexample: with platformFeeRate = 0 and costCNY = 1/2 the
total 1/2 * 23 + 1000 + 1000 + 6000 = 8011.5 is not an integer, and
calculateSellingPrice returns its ceiling 8012, not the total itself. -/
theorem sellingPrice_feeZero_cex :
    (⟨23, 1000, 1000, 6000, 0⟩ : Settings).platformFeeRate = 0 ∧
    (0:ℚ) ≤ 1/2 ∧
    ((calculateSellingPrice (1/2) ⟨23, 1000, 1000, 6000, 0⟩ : ℤ) : ℚ) ≠
      (1/2) * 23 + 1000 + 1000 + 6000 := by
  refine ⟨rfl, by norm_num, ?_⟩
  have h : calculateSellingPrice (1/2) ⟨23, 1000, 1000, 6000, 0⟩ = 8012 := by
    simp only [calculateSellingPrice]
    norm_num [Int.ceil_eq_iff]
  rw [h]
  norm_num

/-- C7 amended: when platformFeeRate = 0 the fee division is the identity
and calculateSellingPrice equals the ceiling of the total
costCNY * exchangeRate + internationalShipping + domesticShipping +
targetProfit; it equals the total exactly whenever the total is an
integer. -/
theorem sellingPrice_feeZero (costCNY : ℚ) (settings : Settings)
    (h : settings.platformFeeRate = 0) :
    calculateSellingPrice costCNY settings =
      ⌈costCNY * settings.exchangeRate + settings.internationalShipping +
        settings.domesticShipping + settings.targetProfit⌉ ∧
    ∀ n : ℤ, costCNY * settings.exchangeRate + settings.internationalShipping +
        settings.domesticShipping + settings.targetProfit = (n : ℚ) →
      calculateSellingPrice costCNY settings = n := by
  have hbody : calculateSellingPrice costCNY settings =
      ⌈costCNY * settings.exchangeRate + settings.internationalShipping +
        settings.domesticShipping + settings.targetProfit⌉ := by
    simp only [calculateSellingPrice, h, sub_zero, div_one]
  refine ⟨hbody, fun n hn => ?_⟩
  rw [hbody, hn, Int.ceil_intCast]

/-- Witness for the amended C7 at costCNY = 100 with fee zero. -/
theorem sellingPrice_feeZero_witness :
    calculateSellingPrice 100 ⟨23, 1000, 1000, 6000, 0⟩ =
      ⌈(100:ℚ) * (⟨23, 1000, 1000, 6000, 0⟩ : Settings).exchangeRate +
        (⟨23, 1000, 1000, 6000, 0⟩ : Settings).internationalShipping +
        (⟨23, 1000, 1000, 6000, 0⟩ : Settings).domesticShipping +
        (⟨23, 1000, 1000, 6000, 0⟩ : Settings).targetProfit⌉ ∧
    ∀ n : ℤ, (100:ℚ) * (⟨23, 1000, 1000, 6000, 0⟩ : Settings).exchangeRate +
        (⟨23, 1000, 1000, 6000, 0⟩ : Settings).internationalShipping +
        (⟨23, 1000, 1000, 6000, 0⟩ : Settings).domesticShipping +
        (⟨23, 1000, 1000, 6000, 0⟩ : Settings).targetProfit = (n : ℚ) →
      calculateSellingPrice 100 ⟨23, 1000, 1000, 6000, 0⟩ = n :=
  sellingPrice_feeZero 100 ⟨23, 1000, 1000, 6000, 0⟩ rfl

end YenWizard

namespace YenWizard

/-- C8 counterexample: a submitted item with quantity -5 (non-positive)
but non-empty name and positive cost is not rejected — the submit handler
adds it, so the inventory of the matching store grows to length 1. -/
theorem addInventory_quantity_not_validated :
    badQuantityInventory.quantity ≤ 0 ∧
    (AddInventoryDialog.handleSubmit "new1" defaultSettings "s1" badQuantityInventory
        [store0]).map (fun s => s.inventory.length) = [1] := by
  constructor
  · norm_num [badQuantityInventory]
  · unfold AddInventoryDialog.handleSubmit
    rw [if_pos ⟨by decide, by norm_num [badQuantityInventory]⟩]
    simp [addInventoryItem, store0]

/-- C8 amended: inventory creation is rejected — the store list is
unchanged — exactly when the trimmed productName is empty or
costPriceCNY ≤ 0; quantity is not validated. A create that passes the
checks appends exactly one new item, with sellingPriceJPY derived by
calculateSellingPrice, to each store whose id is the active one, and
leaves every other store unchanged. -/
theorem addInventory_validation (newId : String) (settings : Settings)
    (activeStoreId : String) (item : NewInventoryItem) (stores : List Store) :
    (jsTrim item.productName = "" ∨ item.costPriceCNY ≤ 0 →
      AddInventoryDialog.handleSubmit newId settings activeStoreId item stores = stores) ∧
    (jsTrim item.productName ≠ "" → 0 < item.costPriceCNY →
      List.Forall₂ (fun old new : Store =>
        (old.id = activeStoreId →
          new = { old with inventory := old.inventory ++
            [⟨newId, item.photo, item.productName, item.color, item.size,
              item.quantity, item.costPriceCNY,
              calculateSellingPrice item.costPriceCNY settings⟩] }) ∧
        (old.id ≠ activeStoreId → new = old))
        stores (AddInventoryDialog.handleSubmit newId settings activeStoreId item stores)) := by
  constructor
  · intro h
    unfold AddInventoryDialog.handleSubmit
    rw [if_neg]
    rintro ⟨h1, h2⟩
    rcases h with h | h
    · exact h1 h
    · exact absurd h2 (not_lt.2 h)
  · intro h1 h2
    unfold AddInventoryDialog.handleSubmit
    rw [if_pos ⟨h1, h2⟩]
    unfold addInventoryItem
    rw [List.forall₂_map_right_iff, List.forall₂_same]
    intro s _
    constructor
    · intro he
      rw [if_pos he]
    · intro hne
      rw [if_neg hne]

/-- Witness for the amended C8: a blank-name submission leaves the store
list unchanged, and a valid submission appends its item to the matching
store. -/
theorem addInventory_validation_witness :
    AddInventoryDialog.handleSubmit "new1" defaultSettings "s1" blankNameInventory
      [store0] = [store0] ∧
    List.Forall₂ (fun old new : Store =>
        (old.id = "s1" →
          new = { old with inventory := old.inventory ++
            [⟨"new1", goodNewInventory.photo, goodNewInventory.productName,
              goodNewInventory.color, goodNewInventory.size,
              goodNewInventory.quantity, goodNewInventory.costPriceCNY,
              calculateSellingPrice goodNewInventory.costPriceCNY defaultSettings⟩] }) ∧
        (old.id ≠ "s1" → new = old))
      [store0] (AddInventoryDialog.handleSubmit "new1" defaultSettings "s1"
        goodNewInventory [store0]) := by
  constructor
  · exact (addInventory_validation "new1" defaultSettings "s1" blankNameInventory
      [store0]).1 (Or.inl (by decide))
  · exact (addInventory_validation "new1" defaultSettings "s1" goodNewInventory
      [store0]).2 (by decide) (by norm_num [goodNewInventory])

/-- C9 counterexample: updateSettings applied to the default settings with
the partial update that sets platformFeeRate to 3/2 stores the invalid
value — the update is not rejected and the settings change. -/
theorem updateSettings_no_validation_cex :
    (1:ℚ) ≤ (updateSettings defaultSettings invalidFeeUpdate).platformFeeRate ∧
    updateSettings defaultSettings invalidFeeUpdate ≠ defaultSettings := by
  constructor
  · norm_num [updateSettings, defaultSettings, invalidFeeUpdate]
  · intro h
    have h2 := congrArg Settings.platformFeeRate h
    norm_num [updateSettings, defaultSettings, invalidFeeUpdate] at h2

/-- C9 amended: the settings-update entry point performs no validation:
updateSettings merges the partial update into the previous settings —
every provided field is stored verbatim and every omitted field keeps its
previous value — so invalid configurations such as platformFeeRate ≥ 1 or
negative values are accepted and stored. -/
theorem updateSettings_merge_spec (prev : Settings) (u : SettingsUpdates) :
    (updateSettings prev u).exchangeRate = u.exchangeRate.getD prev.exchangeRate ∧
    (updateSettings prev u).internationalShipping =
      u.internationalShipping.getD prev.internationalShipping ∧
    (updateSettings prev u).domesticShipping =
      u.domesticShipping.getD prev.domesticShipping ∧
    (updateSettings prev u).targetProfit = u.targetProfit.getD prev.targetProfit ∧
    (updateSettings prev u).platformFeeRate =
      u.platformFeeRate.getD prev.platformFeeRate :=
  ⟨rfl, rfl, rfl, rfl, rfl⟩

end YenWizard

namespace YenWizard

/-- C10: the invariant profit = actualPayment - convertedWithShipping
holds for every order after addOrderItem and after updateOrderItem with
attribute-only updates whenever it held before, and unconditionally after
recalculateAllPrices; but updateOrderItem accepts arbitrary partial
updates, and the concrete update that directly sets profit without
touching costPriceCNY or actualPayment breaks the invariant. -/
theorem orderProfit_invariant_ops (settings : Settings)
    (newId now activeStoreId itemId : String) (item : NewOrderItem)
    (createdAt : Option String) (u : OrderItemUpdates) (stores : List Store)
    (hinv : allOrdersInv stores) (hattr : attributeOnlyUpdates u) :
    allOrdersInv (addOrderItem newId now settings activeStoreId item createdAt stores) ∧
    allOrdersInv (recalculateAllPrices settings stores) ∧
    allOrdersInv (updateOrderItem settings activeStoreId itemId u stores) ∧
    (allOrdersInv [orderStore] ∧
      ¬ allOrdersInv (updateOrderItem defaultSettings "s1" "o1" profitOnlyUpdate
        [orderStore])) := by
  obtain ⟨hid, hconv, hprof⟩ := hattr
  refine ⟨?_, ?_, ?_, ?_, ?_⟩
  · intro s' hs'
    simp only [addOrderItem, List.mem_map] at hs'
    obtain ⟨s, hs, rfl⟩ := hs'
    by_cases h : s.id = activeStoreId
    · rw [if_pos h]
      intro o ho
      simp only [List.mem_append, List.mem_singleton] at ho
      rcases ho with ho | rfl
      · exact hinv s hs o ho
      · exact rfl
    · rw [if_neg h]
      exact hinv s hs
  · intro s' hs'
    simp only [recalculateAllPrices, List.mem_map] at hs'
    obtain ⟨s, hs, rfl⟩ := hs'
    intro o ho
    simp only [List.mem_map] at ho
    obtain ⟨o0, ho0, rfl⟩ := ho
    exact rfl
  · intro s' hs'
    simp only [updateOrderItem, List.mem_map] at hs'
    obtain ⟨s, hs, rfl⟩ := hs'
    by_cases h : s.id ≠ activeStoreId
    · rw [if_pos h]
      exact hinv s hs
    · rw [if_neg h]
      intro o ho
      simp only [List.mem_map] at ho
      obtain ⟨o0, ho0, rfl⟩ := ho
      by_cases hoid : o0.id ≠ itemId
      · rw [if_pos hoid]
        exact hinv s hs o0 ho0
      · rw [if_neg hoid]
        cases hu : u.costPriceCNY with
        | some c =>
          simp only [hu, Option.isSome_some, or_true, if_true]
          exact rfl
        | none =>
          cases hp : u.actualPayment with
          | some a =>
            simp only [hu, hp, Option.isSome_some, Option.isSome_none, true_or, if_true]
            exact rfl
          | none =>
            simp only [hu, hp, Option.isSome_none, or_self, Bool.false_eq_true, if_false]
            show orderProfitInvariant (spreadOrderItem o0 u)
            have hbase := hinv s hs o0 ho0
            simp only [orderProfitInvariant, spreadOrderItem, hprof, hconv, hp,
              Option.getD_none] at hbase ⊢
            exact hbase
  · intro s hs o ho
    simp only [orderStore, List.mem_singleton] at hs
    subst hs
    simp only [orderStore, order0, List.mem_singleton] at ho
    subst ho
    simp [orderProfitInvariant]
  · intro h
    have hres : updateOrderItem defaultSettings "s1" "o1" profitOnlyUpdate [orderStore] =
        [⟨"s1", "Store 1", [],
          [⟨"o1", "", "item", "", "", 10, 1230, 3000, 0, "2026-01-15", "2026-01-15"⟩]⟩] := by
      simp [updateOrderItem, orderStore, order0, profitOnlyUpdate, spreadOrderItem]
    rw [hres] at h
    have h3 := h _ (List.mem_singleton_self _) _ (List.mem_singleton_self _)
    simp only [orderProfitInvariant] at h3
    norm_num at h3

/-- Witness for C10: concrete instantiation over the consistent store
holding order0, with the empty attribute-only update. -/
theorem orderProfit_invariant_ops_witness :
    allOrdersInv (addOrderItem "o9" "2026-02-01" defaultSettings "s1" sampleNewOrder
      none [orderStore]) ∧
    allOrdersInv (recalculateAllPrices defaultSettings [orderStore]) ∧
    allOrdersInv (updateOrderItem defaultSettings "s1" "o1" noOrderUpdates [orderStore]) ∧
    (allOrdersInv [orderStore] ∧
      ¬ allOrdersInv (updateOrderItem defaultSettings "s1" "o1" profitOnlyUpdate
        [orderStore])) :=
  orderProfit_invariant_ops defaultSettings "o9" "2026-02-01" "s1" "o1" sampleNewOrder
    none noOrderUpdates [orderStore]
    (by
      intro s hs o ho
      simp only [orderStore, List.mem_singleton] at hs
      subst hs
      simp only [orderStore, order0, List.mem_singleton] at ho
      subst ho
      simp [orderProfitInvariant])
    ⟨rfl, rfl, rfl⟩

end YenWizard
